import Mathlib

/-
  Shallow embedding of the dondo combat/CR calculator.

  Conventions of the embedding:
  * Rust `isize` is modelled as `Int`, `usize` as `Nat` (the code never relies
    on wrap-around; all clamping is explicit in the source).
  * Rust `f64` is modelled as `ℚ`; every float the program manipulates is a
    small exact value (halves, 1/8ths, i/n die fractions), so the rational
    model is exact on the program's domain.
  * A Rust `f64 as isize` cast truncates toward zero, modelled by `fTrunc`.
  * Rust `isize` division truncates toward zero, modelled by `Int.tdiv`.
  * A panic (`unimplemented!`, a failing `unwrap`) is modelled as `none` of an
    `Option` result.
  * `HashSet<DamageKind>` is modelled as `List DamageKind` queried through
    `List.contains`.
  * `Rc` sharing is modelled by plain nesting: the shared trees are immutable
    values, so sharing is unobservable to the functions treated here.
-/

namespace Dondo

/-- Truncation of a rational toward zero: the semantics of Rust's
float-to-integer `as` casts on in-range values. -/
def fTrunc (x : ℚ) : Int :=
  if 0 ≤ x then ⌊x⌋ else ⌈x⌉

/-- src/util.rs `clamp_isize`: convert a signed isize into the nearest usize,
rounding negatives to zero (total version, with the `unwrap` resolved). -/
def clamp_isize (i : Int) : Nat :=
  if i < 0 then 0 else i.toNat

/-- The fallible `isize -> usize` conversion (`try_into`): succeeds exactly on
non-negative inputs. -/
def try_into_usize (i : Int) : Option Nat :=
  if 0 ≤ i then some i.toNat else none

/-- src/util.rs `clamp_isize` exactly as written: zero on negatives, otherwise
the checked conversion followed by `unwrap` (a `none` models a panic). -/
def clamp_isize_checked (i : Int) : Option Nat :=
  if i < 0 then some 0 else try_into_usize i

/-- src/dice.rs `Die`: an n-sided die (`pub struct Die(pub Value)`,
`Value = isize`). -/
structure Die where
  sides : Int
deriving DecidableEq

/-- src/dice.rs `DiceExpr`: an arbitrary expression of dice. -/
inductive DiceExpr where
  | die : Die → DiceExpr
  | times : Nat → DiceExpr → DiceExpr
  | plus : DiceExpr → DiceExpr → DiceExpr
  | const : Int → DiceExpr

/-- src/dice.rs `DiceExpr::cum_prob`: probability that the value is `≤ i`.
The `Times` and `Plus` arms are `unimplemented!()` in the source, modelled as
`none`. -/
def DiceExpr.cum_prob : DiceExpr → Int → Option ℚ
  | .die d, i =>
      some (if i ≤ 0 then 0 else if i ≥ d.sides then 1 else (i : ℚ) / (d.sides : ℚ))
  | .const c, i => some (if i < c then 0 else 1)
  | .times _ _, _ => none
  | .plus _ _, _ => none

/-- src/dice.rs `DiceExpr::prob_pass`: probability of a roll at or over
`check`; `1.0 - cum_prob (check - 1)`, inheriting the partiality of
`cum_prob`. -/
def DiceExpr.prob_pass (e : DiceExpr) (check : Int) : Option ℚ :=
  (e.cum_prob (check - 1)).map (fun p => 1 - p)

/-- src/dice.rs `impl ExpectedValue for DiceExpr`: closed-form expectation. -/
def DiceExpr.expected : DiceExpr → ℚ
  | .die d => (1 + (d.sides : ℚ)) / 2
  | .times n x => (n : ℚ) * x.expected
  | .plus a b => a.expected + b.expected
  | .const v => (v : ℚ)

/-- src/basetraits.rs `Abilities`: all six ability scores. -/
structure Abilities where
  str : Int
  dex : Int
  con : Int
  int : Int
  wis : Int
  cha : Int
deriving DecidableEq

/-- src/basetraits.rs `Ability`: the six abilities themselves. -/
inductive Ability where
  | str
  | dex
  | con
  | int
  | wis
  | cha
deriving DecidableEq

/-- src/basetraits.rs `Abilities::map`: map all abilities through a function. -/
def Abilities.map (a : Abilities) (f : Int → Int) : Abilities :=
  ⟨f a.str, f a.dex, f a.con, f a.int, f a.wis, f a.cha⟩

/-- src/basetraits.rs `impl Index<Ability> for Abilities`. -/
def Abilities.index (a : Abilities) : Ability → Int
  | .str => a.str
  | .dex => a.dex
  | .con => a.con
  | .int => a.int
  | .wis => a.wis
  | .cha => a.cha

/-- src/basetraits.rs `AScores`: ability scores wrapper. -/
structure AScores where
  v : Abilities
deriving DecidableEq

/-- src/basetraits.rs `impl Default for AScores`: all scores 10. -/
def AScores.default : AScores :=
  ⟨⟨10, 10, 10, 10, 10, 10⟩⟩

/-- src/basetraits.rs `AMods`: ability modifiers wrapper. -/
structure AMods where
  v : Abilities
deriving DecidableEq

/-- src/basetraits.rs `impl From<T> for AMods`: `(x - 10) / 2` where `/` is
Rust's signed division, which truncates toward zero (`Int.tdiv`). -/
def AMods.fromScores (s : AScores) : AMods :=
  ⟨s.v.map (fun x => Int.tdiv (x - 10) 2)⟩

/-- src/basetraits.rs `Size`: creature size. -/
inductive Size where
  | tiny
  | small
  | medium
  | large
  | huge
  | gargantuan
deriving DecidableEq

/-- src/basetraits.rs `Size::hit_die`. -/
def Size.hit_die : Size → Die
  | .tiny => ⟨4⟩
  | .small => ⟨6⟩
  | .medium => ⟨8⟩
  | .large => ⟨10⟩
  | .huge => ⟨12⟩
  | .gargantuan => ⟨20⟩

/-- src/basetraits.rs `CR`: challenge rating, an enumeration of the 34
levels 0, 1/8, 1/4, 1/2, 1..30 in the declared (derived `Ord`) order. -/
inductive CR where
  | CR0
  | CROneEighth
  | CROneQuarter
  | CROneHalf
  | CR1
  | CR2
  | CR3
  | CR4
  | CR5
  | CR6
  | CR7
  | CR8
  | CR9
  | CR10
  | CR11
  | CR12
  | CR13
  | CR14
  | CR15
  | CR16
  | CR17
  | CR18
  | CR19
  | CR20
  | CR21
  | CR22
  | CR23
  | CR24
  | CR25
  | CR26
  | CR27
  | CR28
  | CR29
  | CR30
deriving DecidableEq

/-- src/basetraits.rs `impl Into<f64> for CR`: the exact numeric value of each
level. -/
def CR.toReal : CR → ℚ
  | .CR0 => 0
  | .CROneEighth => 1 / 8
  | .CROneQuarter => 1 / 4
  | .CROneHalf => 1 / 2
  | .CR1 => 1
  | .CR2 => 2
  | .CR3 => 3
  | .CR4 => 4
  | .CR5 => 5
  | .CR6 => 6
  | .CR7 => 7
  | .CR8 => 8
  | .CR9 => 9
  | .CR10 => 10
  | .CR11 => 11
  | .CR12 => 12
  | .CR13 => 13
  | .CR14 => 14
  | .CR15 => 15
  | .CR16 => 16
  | .CR17 => 17
  | .CR18 => 18
  | .CR19 => 19
  | .CR20 => 20
  | .CR21 => 21
  | .CR22 => 22
  | .CR23 => 23
  | .CR24 => 24
  | .CR25 => 25
  | .CR26 => 26
  | .CR27 => 27
  | .CR28 => 28
  | .CR29 => 29
  | .CR30 => 30

/-- Position of a CR level in the declared order; this is the order relation
of the derived Rust `Ord` instance. -/
def CR.idx : CR → Nat
  | .CR0 => 0
  | .CROneEighth => 1
  | .CROneQuarter => 2
  | .CROneHalf => 3
  | .CR1 => 4
  | .CR2 => 5
  | .CR3 => 6
  | .CR4 => 7
  | .CR5 => 8
  | .CR6 => 9
  | .CR7 => 10
  | .CR8 => 11
  | .CR9 => 12
  | .CR10 => 13
  | .CR11 => 14
  | .CR12 => 15
  | .CR13 => 16
  | .CR14 => 17
  | .CR15 => 18
  | .CR16 => 19
  | .CR17 => 20
  | .CR18 => 21
  | .CR19 => 22
  | .CR20 => 23
  | .CR21 => 24
  | .CR22 => 25
  | .CR23 => 26
  | .CR24 => 27
  | .CR25 => 28
  | .CR26 => 29
  | .CR27 => 30
  | .CR28 => 31
  | .CR29 => 32
  | .CR30 => 33

/-- All 34 CR levels in declared order. -/
def CR.all : List CR :=
  [.CR0, .CROneEighth, .CROneQuarter, .CROneHalf,
   .CR1, .CR2, .CR3, .CR4, .CR5, .CR6, .CR7, .CR8, .CR9, .CR10,
   .CR11, .CR12, .CR13, .CR14, .CR15, .CR16, .CR17, .CR18, .CR19, .CR20,
   .CR21, .CR22, .CR23, .CR24, .CR25, .CR26, .CR27, .CR28, .CR29, .CR30]

/-- src/basetraits.rs `impl From<CR> for ProfBonus`, the match over the real
value `crf`. -/
def profBonusOfReal (crf : ℚ) : Int :=
  if crf < 5 then 2
  else if crf < 9 then 3
  else if crf < 13 then 4
  else if crf < 17 then 5
  else if crf < 21 then 6
  else if crf < 25 then 7
  else if crf < 29 then 8
  else 9

/-- src/basetraits.rs `impl From<CR> for ProfBonus`. -/
def ProfBonus.fromCR (cr : CR) : Int :=
  profBonusOfReal cr.toReal

/-- src/basetraits.rs `impl From<CR> for AC`, the match over the real value
`crf`. -/
def acOfReal (crf : ℚ) : Nat :=
  if crf < 4 then 13
  else if crf < 5 then 14
  else if crf < 8 then 15
  else if crf < 10 then 16
  else if crf < 13 then 17
  else if crf < 17 then 18
  else 19

/-- src/basetraits.rs `impl From<CR> for AC`. -/
def AC.fromCR (cr : CR) : Nat :=
  acOfReal cr.toReal

/-- src/basetraits.rs `impl From<HP> for CR`: the hit-point step function. -/
def CR.fromHP (hp : Nat) : CR :=
  if hp ≤ 6 then .CR0
  else if hp ≤ 35 then .CROneEighth
  else if hp ≤ 49 then .CROneQuarter
  else if hp ≤ 70 then .CROneHalf
  else if hp ≤ 85 then .CR1
  else if hp ≤ 100 then .CR2
  else if hp ≤ 115 then .CR3
  else if hp ≤ 130 then .CR4
  else if hp ≤ 145 then .CR5
  else if hp ≤ 160 then .CR6
  else if hp ≤ 175 then .CR7
  else if hp ≤ 190 then .CR8
  else if hp ≤ 205 then .CR9
  else if hp ≤ 220 then .CR10
  else if hp ≤ 235 then .CR11
  else if hp ≤ 250 then .CR12
  else if hp ≤ 265 then .CR13
  else if hp ≤ 280 then .CR14
  else if hp ≤ 295 then .CR15
  else if hp ≤ 310 then .CR16
  else if hp ≤ 325 then .CR17
  else if hp ≤ 340 then .CR18
  else if hp ≤ 355 then .CR19
  else if hp ≤ 400 then .CR20
  else if hp ≤ 445 then .CR21
  else if hp ≤ 490 then .CR22
  else if hp ≤ 535 then .CR23
  else if hp ≤ 580 then .CR24
  else if hp ≤ 625 then .CR25
  else if hp ≤ 670 then .CR26
  else if hp ≤ 715 then .CR27
  else if hp ≤ 760 then .CR28
  else if hp ≤ 805 then .CR29
  else .CR30

/-- src/basetraits.rs `CR::to_hit_bonus`, the match over the real value. -/
def toHitOfReal (crf : ℚ) : Int :=
  if crf < 3 then 3
  else if crf < 4 then 4
  else if crf < 5 then 5
  else if crf < 8 then 6
  else if crf < 11 then 7
  else if crf < 16 then 8
  else if crf < 17 then 9
  else if crf < 21 then 10
  else if crf < 24 then 11
  else if crf < 27 then 12
  else if crf < 30 then 13
  else 14

/-- src/basetraits.rs `CR::to_hit_bonus`. -/
def CR.to_hit_bonus (cr : CR) : Int :=
  toHitOfReal cr.toReal

/-- src/basetraits.rs `CR::save_dc`, the match over the real value. -/
def saveDcOfReal (crf : ℚ) : Int :=
  if crf < 4 then 13
  else if crf < 5 then 14
  else if crf < 8 then 15
  else if crf < 11 then 16
  else if crf < 13 then 17
  else if crf < 17 then 18
  else if crf < 21 then 19
  else if crf < 24 then 20
  else if crf < 27 then 21
  else if crf < 30 then 22
  else 23

/-- src/basetraits.rs `CR::save_dc`. -/
def CR.save_dc (cr : CR) : Int :=
  saveDcOfReal cr.toReal

/-- src/basetraits.rs `ACKind`: how a creature's armor class is derived. -/
inductive ACKind where
  | normal
  | unarmoredDefense
  | armor : Nat → ACKind
  | armorDex : Nat → ACKind
  | natural : Nat → ACKind

/-- src/basetraits.rs `ACKind::armor_class`. -/
def ACKind.armor_class (k : ACKind) (m : AMods) : Nat :=
  match k with
  | .normal => clamp_isize (10 + m.v.dex)
  | .unarmoredDefense => clamp_isize (10 + m.v.dex + m.v.con)
  | .armor x => x
  | .natural x => x
  | .armorDex x => clamp_isize ((x : Int) + m.v.dex)

/-- src/damage.rs `DamageKind`: the 13 damage kinds. -/
inductive DamageKind where
  | acid
  | bludgeoning
  | cold
  | fire
  | force
  | lightning
  | necrotic
  | piercing
  | poison
  | psychic
  | radiant
  | slashing
  | thunder
deriving DecidableEq, BEq

/-- src/damage.rs `Damage`: a non-negative amount paired with a kind. -/
structure Damage where
  amount : Nat
  kind : DamageKind

/-- src/action.rs `DamageRoll`: a dice expression paired with a damage kind. -/
structure DamageRoll where
  expr : DiceExpr
  kind : DamageKind

/-- src/space.rs `Area`: an area-of-effect shape (dimensions as exact
rationals; the irrational `floor_area` evaluation is outside the claims
treated here). -/
inductive Area where
  | line : ℚ → ℚ → Area
  | cylinder : ℚ → ℚ → Area
  | sphere : ℚ → Area
  | cone : ℚ → Area
  | cube : ℚ → Area

/-- src/action.rs `Target`: how many targets an action can affect. -/
inductive Target where
  | exactly : Nat → Target
  | area : Area → Target

/-- src/action.rs `SavingDC`: the source of a saving-throw DC. -/
inductive SavingDC where
  | granted : Ability → SavingDC
  | exactly : Nat → SavingDC

/-- src/action.rs `SavingDC::def_class`. -/
def SavingDC.def_class (s : SavingDC) (m : AMods) (prof : Int) : Nat :=
  match s with
  | .granted ab => clamp_isize (8 + prof + m.v.index ab)
  | .exactly dc => dc

/-- src/action.rs `SaveKind`: the kind of saving throw. -/
inductive SaveKind where
  | ability : Ability → SaveKind
  | death

/-- src/action.rs `SaveKind::modifier`. -/
def SaveKind.modifier (k : SaveKind) (m : AMods) : Int :=
  match k with
  | .ability ab => m.v.index ab
  | .death => 0

/-- src/action.rs `SaveEffect`: effects of a successful save. -/
inductive SaveEffect where
  | reducesDamage : ℚ → SaveEffect

/-- src/action.rs `Save`: the full description of a saving throw. -/
structure Save where
  kind : SaveKind
  dc : SavingDC
  effect : SaveEffect

/-- src/action.rs `AttackKind`. -/
inductive AttackKind where
  | melee
  | ranged
  | special

/-- src/action.rs `AttackKind::modifier`. -/
def AttackKind.modifier (k : AttackKind) (m : AMods) : Int :=
  match k with
  | .melee => m.v.str
  | .ranged => m.v.dex
  | .special => 0

/-- src/action.rs `Attack`: the full description of an attack. -/
structure Attack where
  kind : AttackKind
  save : Option Save
  target : Target
  dmg_rolls : List DamageRoll
  dmg_bonus : Int
  to_hit_bonus : Int
  finesse : Bool
  proficient : Bool
  range : Nat

/-- src/action.rs `Attack::modifier`: the "to hit" modifier. -/
def Attack.modifier (a : Attack) (m : AMods) (prof : Int) : Int :=
  a.to_hit_bonus + (if a.proficient then prof else 0) +
    match a.kind with
    | .special => 0
    | k =>
      if a.finesse then
        max (AttackKind.melee.modifier m) (AttackKind.ranged.modifier m)
      else
        k.modifier m

/-- src/action.rs `ActionKind`. -/
inductive ActionKind where
  | attack : Attack → ActionKind
  | multiattack : List Attack → ActionKind

/-- src/action.rs `Action`. -/
structure Action where
  name : String
  kind : ActionKind

/-- src/creature.rs `BaseCreature`. -/
structure BaseCreature where
  ascores : AScores
  ac_kind : ACKind
  actions : List Action
  size : Size
  hit_dice : Nat
  immunities : List DamageKind
  resistances : List DamageKind
  vulnerabilities : List DamageKind

/-- src/creature.rs `BaseCreature::damage_factor`: immunity short-circuits to
zero; resistance and vulnerability multiply the running factor. -/
def BaseCreature.damage_factor (c : BaseCreature) (k : DamageKind) : ℚ :=
  let fac : ℚ := 1
  if c.immunities.contains k then 0
  else
    let fac := if c.resistances.contains k then fac * (1 / 2) else fac
    let fac := if c.vulnerabilities.contains k then fac * 2 else fac
    fac

/-- src/creature.rs `BaseCreature::mods`. -/
def BaseCreature.mods (c : BaseCreature) : AMods :=
  AMods.fromScores c.ascores

/-- src/creature.rs `BaseCreature::armor_class`. -/
def BaseCreature.armor_class (c : BaseCreature) : Nat :=
  c.ac_kind.armor_class c.mods

/-- src/creature.rs `Creature`: a BaseCreature with a cached CR. -/
structure Creature where
  base : BaseCreature
  cr : CR

/-- src/creature.rs `Creature::damage_factor`. -/
def Creature.damage_factor (c : Creature) (k : DamageKind) : ℚ :=
  c.base.damage_factor k

/-- src/creature.rs `Creature::mods`. -/
def Creature.mods (c : Creature) : AMods :=
  c.base.mods

/-- src/creature.rs `Creature::prof_bonus`. -/
def Creature.prof_bonus (c : Creature) : Int :=
  ProfBonus.fromCR c.cr

/-- src/combat.rs `AreaEffectDensity`. -/
inductive AreaEffectDensity where
  | exactly : Nat → AreaEffectDensity
  | density : ℚ → AreaEffectDensity

/-- src/combat.rs `RechargeModel`. -/
inductive RechargeModel where
  | never
  | afterPassProbability : ℚ → RechargeModel

/-- src/combat.rs `CombatSettings`. -/
structure CombatSettings where
  effect_density : AreaEffectDensity
  recharge_model : RechargeModel
  rounds : Nat

/-- src/combat.rs `CombatPair`: an attacker/defender pair plus settings. -/
structure CombatPair where
  attacker : Creature
  defenders : Creature
  settings : CombatSettings

/-- src/combat.rs `CombatPair::expected_single_damage_rolls`: the per-roll
expected damage list; the flat bonus is added at index 0 only. -/
def CombatPair.expected_single_damage_rolls (p : CombatPair) (atk : Attack) :
    List Damage :=
  atk.dmg_rolls.enum.map (fun x =>
    ⟨clamp_isize
        (fTrunc (max (0 : ℚ) (x.2.expr.expected * p.defenders.damage_factor x.2.kind)) +
          (if x.1 = 0 then atk.dmg_bonus else 0)),
      x.2.kind⟩)

/-- src/combat.rs `CombatPair::expected_single_damage_sum`: sum of the
per-roll list. -/
def CombatPair.expected_single_damage_sum (p : CombatPair) (atk : Attack) : Nat :=
  ((p.expected_single_damage_rolls atk).map (fun d => d.amount)).sum

/-- src/combat.rs `CombatPair::expected_single_damage`: re-adds the flat bonus
to the sum, then applies saving-throw mitigation if present, then clamps.  A
`none` models the panic that a compound-expression `prob_pass` would raise
(never reachable here: the query is always on a single d20). -/
def CombatPair.expected_single_damage (p : CombatPair) (atk : Attack) :
    Option Nat :=
  let dmg : Int := (p.expected_single_damage_sum atk : Int) + atk.dmg_bonus
  match atk.save with
  | none => some (clamp_isize dmg)
  | some s =>
    match s.effect with
    | .reducesDamage amt =>
      let dc : Nat := s.dc.def_class p.attacker.mods p.attacker.prof_bonus
      let sm : Int := s.kind.modifier p.defenders.mods
      match (DiceExpr.die ⟨20⟩).prob_pass ((dc : Int) - sm) with
      | none => none
      | some pp =>
        some (clamp_isize (fTrunc (pp * ((dmg : ℚ) * amt) + (1 - pp) * (dmg : ℚ))))

/-- Modelled from the spec: the hit-point threshold table of
`cr_from_hit_points` as the spec states it, a list of (inclusive upper bound,
level) pairs in the order 0, 1/8, 1/4, 1/2, 1..29, with CR 30 the default
above the last threshold. -/
def crHPTable : List (Nat × CR) :=
  [(6, .CR0), (35, .CROneEighth), (49, .CROneQuarter), (70, .CROneHalf),
   (85, .CR1), (100, .CR2), (115, .CR3), (130, .CR4), (145, .CR5),
   (160, .CR6), (175, .CR7), (190, .CR8), (205, .CR9), (220, .CR10),
   (235, .CR11), (250, .CR12), (265, .CR13), (280, .CR14), (295, .CR15),
   (310, .CR16), (325, .CR17), (340, .CR18), (355, .CR19), (400, .CR20),
   (445, .CR21), (490, .CR22), (535, .CR23), (580, .CR24), (625, .CR25),
   (670, .CR26), (715, .CR27), (760, .CR28), (805, .CR29)]

/-- Generic first-threshold lookup over a table of (bound, level) pairs. -/
def stepLookup : List (Nat × CR) → CR → Nat → CR
  | [], dflt, _ => dflt
  | (t, c) :: rest, dflt, hp => if hp ≤ t then c else stepLookup rest dflt hp

/-- The spec's statement of `cr_from_hit_points` as a table-driven step
function, to be compared with the code's `CR.fromHP`. -/
def crFromHPSpec (hp : Nat) : CR :=
  stepLookup crHPTable .CR30 hp

/-- The numeric value of the CR level at a given position of the declared
order; helper for monotonicity of the CR tables. -/
def crIndexValue : Nat → ℚ
  | 0 => 0
  | 1 => 1 / 8
  | 2 => 1 / 4
  | 3 => 1 / 2
  | n + 4 => (n : ℚ) + 1

/- Concrete fixtures used by witnesses and counterexamples. -/

/-- A default creature: all scores 10, no resistance data, rated CR 1. -/
def testCreature : Creature :=
  ⟨⟨AScores.default, .normal, [], .medium, 1, [], [], []⟩, .CR1⟩

/-- Default combat settings (Exactly(2), Never, 3 rounds). -/
def testSettings : CombatSettings :=
  ⟨.exactly 2, .never, 3⟩

/-- A combat pair of two default creatures. -/
def testPair : CombatPair :=
  ⟨testCreature, testCreature, testSettings⟩

/-- An attack with a single flat Const(10) slashing roll and flat bonus 3. -/
def bonusAttack : Attack :=
  ⟨.melee, none, .exactly 1, [⟨.const 10, .slashing⟩], 3, 0, false, false, 5⟩

/-- An attack carrying a Dex save at literal DC 10 halving a flat 10 fire
damage roll. -/
def saveAttack : Attack :=
  ⟨.special, some ⟨.ability .dex, .exactly 10, .reducesDamage (1 / 2)⟩,
    .exactly 1, [⟨.const 10, .fire⟩], 0, 0, false, false, 5⟩

/-- Creature immune (and also resistant and vulnerable) to fire. -/
def cImmuneFire : BaseCreature :=
  ⟨AScores.default, .normal, [], .medium, 1, [.fire], [.fire], [.fire]⟩

/-- Creature both resistant and vulnerable to fire, not immune. -/
def cBothFire : BaseCreature :=
  ⟨AScores.default, .normal, [], .medium, 1, [], [.fire], [.fire]⟩

/-- Creature only resistant to fire. -/
def cResFire : BaseCreature :=
  ⟨AScores.default, .normal, [], .medium, 1, [], [.fire], []⟩

/-- Creature only vulnerable to fire. -/
def cVulFire : BaseCreature :=
  ⟨AScores.default, .normal, [], .medium, 1, [], [], [.fire]⟩

/-- Creature with no resistance data at all. -/
def cPlain : BaseCreature :=
  ⟨AScores.default, .normal, [], .medium, 1, [], [], []⟩

/- Helper lemmas. -/

/-- cum_prob on a single die always succeeds. -/
theorem die_cum_prob_isSome (d : Die) (i : Int) :
    ((DiceExpr.die d).cum_prob i).isSome = true := rfl

/-- prob_pass on a single die always succeeds. -/
theorem die_prob_pass_isSome (d : Die) (c : Int) :
    ((DiceExpr.die d).prob_pass c).isSome = true := rfl

/-- CR.toReal is crIndexValue at the declared position. -/
theorem toReal_eq_indexValue (c : CR) : c.toReal = crIndexValue c.idx := by
  cases c <;> norm_num [CR.toReal, CR.idx, crIndexValue]

/-- crIndexValue is strictly monotone. -/
theorem crIndexValue_strictMono : StrictMono crIndexValue := by
  apply strictMono_nat_of_lt_succ
  intro n
  rcases n with _ | (_ | (_ | (_ | n))) <;> simp [crIndexValue] <;> norm_num

/-- toReal respects the declared order of CR. -/
theorem toReal_mono (a b : CR) (h : a.idx ≤ b.idx) : a.toReal ≤ b.toReal := by
  rw [toReal_eq_indexValue, toReal_eq_indexValue]
  exact crIndexValue_strictMono.monotone h

/-- Generic strict-threshold lookup: first entry whose bound exceeds the
input wins, with a default past the table. -/
def natStep {α : Type} : List (Nat × α) → α → Nat → α
  | [], dflt, _ => dflt
  | (t, v) :: rest, dflt, n => if n < t then v else natStep rest dflt n

/-- A value below every table entry and the default bounds any lookup. -/
theorem natStep_lb {α : Type} [Preorder α] :
    ∀ (tbl : List (Nat × α)) (dflt v : α) (n : Nat),
      (∀ p ∈ tbl, v ≤ p.2) → v ≤ dflt → v ≤ natStep tbl dflt n
  | [], _, _, _, _, hd => hd
  | (t, w) :: rest, dflt, v, n, hlb, hd => by
      simp only [natStep]
      split
      · exact hlb ⟨t, w⟩ (List.mem_cons_self _ _)
      · exact natStep_lb rest dflt v n (fun p hp => hlb p (List.mem_cons_of_mem _ hp)) hd

/-- A threshold table with non-decreasing outputs is monotone in its input. -/
theorem natStep_mono {α : Type} [Preorder α] :
    ∀ (tbl : List (Nat × α)) (dflt : α) (m n : Nat),
      m ≤ n → (tbl.map Prod.snd).Pairwise (fun a b => a ≤ b) →
      (∀ p ∈ tbl, p.2 ≤ dflt) → natStep tbl dflt m ≤ natStep tbl dflt n
  | [], dflt, _, _, _, _, _ => le_refl dflt
  | (t, w) :: rest, dflt, m, n, hmn, hpw, hub => by
      simp only [List.map_cons, List.pairwise_cons] at hpw
      obtain ⟨hw, hrest⟩ := hpw
      simp only [natStep]
      by_cases hm : m < t
      · rw [if_pos hm]
        by_cases hn : n < t
        · rw [if_pos hn]
        · rw [if_neg hn]
          refine natStep_lb rest dflt w n ?_ (hub ⟨t, w⟩ (List.mem_cons_self _ _))
          intro p hp
          exact hw p.2 (List.mem_map_of_mem Prod.snd hp)
      · have hn : ¬ n < t := fun hcon => hm (lt_of_le_of_lt hmn hcon)
        rw [if_neg hm, if_neg hn]
        exact natStep_mono rest dflt m n hmn hrest
          (fun p hp => hub p (List.mem_cons_of_mem _ hp))

/-- The proficiency-bonus table expressed over the declared position; helper
for monotonicity. -/
def profBonusOfIdx (n : Nat) : Int :=
  natStep [(8, 2), (12, 3), (16, 4), (20, 5), (24, 6), (28, 7), (32, 8)] 9 n

/-- The AC table expressed over the declared position; helper for
monotonicity. -/
def acOfIdx (n : Nat) : Nat :=
  natStep [(7, 13), (8, 14), (11, 15), (13, 16), (16, 17), (20, 18)] 19 n

/-- The to-hit table expressed over the declared position; helper for
monotonicity. -/
def toHitOfIdx (n : Nat) : Int :=
  natStep [(6, 3), (7, 4), (8, 5), (11, 6), (14, 7), (19, 8), (20, 9),
    (24, 10), (27, 11), (30, 12), (33, 13)] 14 n

/-- The save-DC table expressed over the declared position; helper for
monotonicity. -/
def saveDcOfIdx (n : Nat) : Int :=
  natStep [(7, 13), (8, 14), (11, 15), (14, 16), (16, 17), (20, 18),
    (24, 19), (27, 20), (30, 21), (33, 22)] 23 n

/-- The proficiency-bonus table factors through the declared position. -/
theorem profBonus_eq_ofIdx (c : CR) : ProfBonus.fromCR c = profBonusOfIdx c.idx := by
  cases c <;>
    norm_num [ProfBonus.fromCR, profBonusOfReal, profBonusOfIdx, natStep,
      CR.toReal, CR.idx]

/-- The AC table factors through the declared position. -/
theorem ac_eq_ofIdx (c : CR) : AC.fromCR c = acOfIdx c.idx := by
  cases c <;>
    norm_num [AC.fromCR, acOfReal, acOfIdx, natStep, CR.toReal, CR.idx]

/-- The to-hit table factors through the declared position. -/
theorem toHit_eq_ofIdx (c : CR) : c.to_hit_bonus = toHitOfIdx c.idx := by
  cases c <;>
    norm_num [CR.to_hit_bonus, toHitOfReal, toHitOfIdx, natStep, CR.toReal, CR.idx]

/-- The save-DC table factors through the declared position. -/
theorem saveDc_eq_ofIdx (c : CR) : c.save_dc = saveDcOfIdx c.idx := by
  cases c <;>
    norm_num [CR.save_dc, saveDcOfReal, saveDcOfIdx, natStep, CR.toReal, CR.idx]

/-- profBonusOfIdx is monotone. -/
theorem profBonusOfIdx_mono (m n : Nat) (h : m ≤ n) :
    profBonusOfIdx m ≤ profBonusOfIdx n :=
  natStep_mono _ 9 m n h (by decide) (by decide)

/-- acOfIdx is monotone. -/
theorem acOfIdx_mono (m n : Nat) (h : m ≤ n) : acOfIdx m ≤ acOfIdx n :=
  natStep_mono _ 19 m n h (by decide) (by decide)

/-- toHitOfIdx is monotone. -/
theorem toHitOfIdx_mono (m n : Nat) (h : m ≤ n) : toHitOfIdx m ≤ toHitOfIdx n :=
  natStep_mono _ 14 m n h (by decide) (by decide)

/-- saveDcOfIdx is monotone. -/
theorem saveDcOfIdx_mono (m n : Nat) (h : m ≤ n) : saveDcOfIdx m ≤ saveDcOfIdx n :=
  natStep_mono _ 23 m n h (by decide) (by decide)

/- Claim theorems. -/

/-- C1 (counterexample): at the concrete pair and attack with flat damage
bonus 3, expected_single_damage_sum equals the plain sum of the per-roll
list, and not that sum plus the flat bonus added again as the claim
states. -/
theorem expected_single_damage_sum_rebonus_cex :
    ¬ ((testPair.expected_single_damage_sum bonusAttack : Int) =
        (((testPair.expected_single_damage_rolls bonusAttack).map
            (fun d => d.amount)).sum : Int) + bonusAttack.dmg_bonus) := by
  norm_num [CombatPair.expected_single_damage_sum,
    CombatPair.expected_single_damage_rolls, DiceExpr.expected,
    Creature.damage_factor, BaseCreature.damage_factor, Creature.mods,
    BaseCreature.mods, AMods.fromScores, AScores.default, Abilities.map,
    Abilities.index, testPair, testCreature, testSettings, bonusAttack,
    fTrunc, clamp_isize, List.enum, List.enumFrom, max_def, Int.tdiv]

/-- C1 (amended): for every attack and defender, expected_single_damage_sum
is exactly the sum of the per-roll list produced by
expected_single_damage_rolls (which applies the flat bonus at index 0); the
flat bonus is added a second time inside expected_single_damage, before
save handling and clamping, so it is the aggregate of
expected_single_damage that applies the flat bonus twice. -/
theorem expected_single_damage_sum_and_rebonus :
    ∀ (p : CombatPair) (atk : Attack),
      p.expected_single_damage_sum atk =
        ((p.expected_single_damage_rolls atk).map (fun d => d.amount)).sum ∧
      (atk.save = none →
        p.expected_single_damage atk =
          some (clamp_isize
            ((p.expected_single_damage_sum atk : Int) + atk.dmg_bonus))) := by
  intro p atk
  refine ⟨rfl, fun h => ?_⟩
  simp only [CombatPair.expected_single_damage, h]

/-- C1 (witness): the amended statement at the concrete pair and attack. -/
theorem expected_single_damage_sum_and_rebonus_witness :
    testPair.expected_single_damage_sum bonusAttack =
      ((testPair.expected_single_damage_rolls bonusAttack).map
        (fun d => d.amount)).sum ∧
    testPair.expected_single_damage bonusAttack =
      some (clamp_isize
        ((testPair.expected_single_damage_sum bonusAttack : Int) +
          bonusAttack.dmg_bonus)) :=
  ⟨(expected_single_damage_sum_and_rebonus testPair bonusAttack).1,
   (expected_single_damage_sum_and_rebonus testPair bonusAttack).2 rfl⟩

/-- C2: the code derives the ability modifier with Rust's truncating signed
division, so at score 9 it yields 0, while the floor of (9 − 10)/2 the
claim specifies is −1. -/
theorem amods_modifier_truncation_at_nine :
    (AMods.fromScores ⟨⟨9, 10, 10, 10, 10, 10⟩⟩).v.str = 0 ∧
    Int.fdiv (9 - 10) 2 = -1 := by
  decide

/-- C3: cum_prob and prob_pass return the unsupported-distribution failure
on every Times and Plus node for every input, with no partial result, and
succeed on every Die and Const node for every input. -/
theorem cum_prob_unsupported_on_compound :
    ∀ i : Int,
      (∀ (n : Nat) (x : DiceExpr), (DiceExpr.times n x).cum_prob i = none) ∧
      (∀ a b : DiceExpr, (DiceExpr.plus a b).cum_prob i = none) ∧
      (∀ (n : Nat) (x : DiceExpr), (DiceExpr.times n x).prob_pass i = none) ∧
      (∀ a b : DiceExpr, (DiceExpr.plus a b).prob_pass i = none) ∧
      (∀ d : Die, ((DiceExpr.die d).cum_prob i).isSome = true) ∧
      (∀ c : Int, ((DiceExpr.const c).cum_prob i).isSome = true) ∧
      (∀ d : Die, ((DiceExpr.die d).prob_pass i).isSome = true) ∧
      (∀ c : Int, ((DiceExpr.const c).prob_pass i).isSome = true) :=
  fun _ => ⟨fun _ _ => rfl, fun _ _ => rfl, fun _ _ => rfl, fun _ _ => rfl,
    fun _ => rfl, fun _ => rfl, fun _ => rfl, fun _ => rfl⟩

/-- C4: expected is the exact closed-form expectation: (1+n)/2 on a die,
k·E(t) on Times, E(a)+E(b) on Plus, v on Const; in particular
Times(8, Die(6)) has expectation 28. -/
theorem expected_closed_form :
    (∀ n : Int, (DiceExpr.die ⟨n⟩).expected = (1 + (n : ℚ)) / 2) ∧
    (∀ (k : Nat) (t : DiceExpr),
      (DiceExpr.times k t).expected = (k : ℚ) * t.expected) ∧
    (∀ a b : DiceExpr,
      (DiceExpr.plus a b).expected = a.expected + b.expected) ∧
    (∀ v : Int, (DiceExpr.const v).expected = (v : ℚ)) ∧
    (DiceExpr.times 8 (.die ⟨6⟩)).expected = 28 := by
  refine ⟨fun n => rfl, fun k t => rfl, fun a b => rfl, fun v => rfl, ?_⟩
  norm_num [DiceExpr.expected]

/-- C5: for every attack carrying a saving throw, the expected single
damage is p_pass·(damage·fraction) + (1 − p_pass)·damage, where p_pass is
the d20 pass probability against DC − save modifier, the DC comes from the
save spec with the attacker's modifiers and proficiency, the save modifier
is the defender's, and the result is truncated and clamped
non-negative. -/
theorem expected_single_damage_save_formula :
    ∀ (p : CombatPair) (atk : Attack) (sk : SaveKind) (sdc : SavingDC) (amt : ℚ),
      atk.save = some ⟨sk, sdc, SaveEffect.reducesDamage amt⟩ →
      ((DiceExpr.die ⟨20⟩).prob_pass
          ((sdc.def_class p.attacker.mods p.attacker.prof_bonus : Int) -
            sk.modifier p.defenders.mods)).isSome = true ∧
      p.expected_single_damage atk =
        some (clamp_isize (fTrunc (
          (((DiceExpr.die ⟨20⟩).prob_pass
              ((sdc.def_class p.attacker.mods p.attacker.prof_bonus : Int) -
                sk.modifier p.defenders.mods)).getD 0) *
            ((((p.expected_single_damage_sum atk : Int) + atk.dmg_bonus : Int) : ℚ) *
              amt) +
          (1 - ((DiceExpr.die ⟨20⟩).prob_pass
              ((sdc.def_class p.attacker.mods p.attacker.prof_bonus : Int) -
                sk.modifier p.defenders.mods)).getD 0) *
            (((p.expected_single_damage_sum atk : Int) + atk.dmg_bonus : Int) : ℚ)))) := by
  intro p atk sk sdc amt h
  refine ⟨die_prob_pass_isSome _ _, ?_⟩
  simp only [CombatPair.expected_single_damage, h]
  rfl

/-- C5 (witness): the DC-10 Dex save halving a flat 10 fire damage against
the default defender evaluates to 7 expected damage. -/
theorem expected_single_damage_save_formula_witness :
    testPair.expected_single_damage saveAttack = some 7 := by
  have h := expected_single_damage_save_formula testPair saveAttack
    (.ability .dex) (.exactly 10) (1 / 2) rfl
  rw [h.2]
  norm_num [CombatPair.expected_single_damage_sum,
    CombatPair.expected_single_damage_rolls, DiceExpr.prob_pass,
    DiceExpr.cum_prob, DiceExpr.expected, Creature.damage_factor,
    BaseCreature.damage_factor, Creature.mods, BaseCreature.mods,
    AMods.fromScores, AScores.default, Abilities.map, Abilities.index,
    SaveKind.modifier, SavingDC.def_class, Creature.prof_bonus,
    testPair, testCreature, testSettings, saveAttack, fTrunc, clamp_isize,
    List.enum, List.enumFrom, max_def, Int.tdiv]
  rfl

/-- C6: damage_factor is 0 whenever the kind is immune regardless of the
other sets; otherwise resistance (×1/2) and vulnerability (×2) compose
multiplicatively, giving 1 when both apply and 1 when neither applies. -/
theorem damage_factor_multiplier_rule :
    ∀ (c : BaseCreature) (k : DamageKind),
      (c.immunities.contains k = true → c.damage_factor k = 0) ∧
      (c.immunities.contains k = false → c.resistances.contains k = true →
        c.vulnerabilities.contains k = true → c.damage_factor k = 1) ∧
      (c.immunities.contains k = false → c.resistances.contains k = true →
        c.vulnerabilities.contains k = false → c.damage_factor k = 1 / 2) ∧
      (c.immunities.contains k = false → c.resistances.contains k = false →
        c.vulnerabilities.contains k = true → c.damage_factor k = 2) ∧
      (c.immunities.contains k = false → c.resistances.contains k = false →
        c.vulnerabilities.contains k = false → c.damage_factor k = 1) := by
  intro c k
  refine ⟨fun h1 => ?_, fun h1 h2 h3 => ?_, fun h1 h2 h3 => ?_,
    fun h1 h2 h3 => ?_, fun h1 h2 h3 => ?_⟩ <;>
    simp [BaseCreature.damage_factor, h1] <;>
    simp [h2, h3]

/-- C6 (witness): the five multiplier cases at concrete creatures, fire
damage. -/
theorem damage_factor_multiplier_rule_witness :
    cImmuneFire.damage_factor .fire = 0 ∧
    cBothFire.damage_factor .fire = 1 ∧
    cResFire.damage_factor .fire = 1 / 2 ∧
    cVulFire.damage_factor .fire = 2 ∧
    cPlain.damage_factor .fire = 1 :=
  ⟨(damage_factor_multiplier_rule cImmuneFire .fire).1 rfl,
   (damage_factor_multiplier_rule cBothFire .fire).2.1 rfl rfl rfl,
   (damage_factor_multiplier_rule cResFire .fire).2.2.1 rfl rfl rfl,
   (damage_factor_multiplier_rule cVulFire .fire).2.2.2.1 rfl rfl rfl,
   (damage_factor_multiplier_rule cPlain .fire).2.2.2.2 rfl rfl rfl⟩

/-- C7: cr_from_hit_points is exactly the spec's threshold step function
over {6,35,...,805} with levels in order 0, 1/8, 1/4, 1/2, 1.., and CR 30
above the last threshold; in particular at 6, 7 and 900. -/
theorem cr_from_hit_points_table :
    (∀ hp : Nat, CR.fromHP hp = crFromHPSpec hp) ∧
    CR.fromHP 6 = .CR0 ∧ CR.fromHP 7 = .CROneEighth ∧
    CR.fromHP 900 = .CR30 :=
  ⟨fun _ => rfl, by decide, by decide, by decide⟩

/-- C8: the proficiency-bonus, expected-AC, to-hit and save-DC tables are
all monotone non-decreasing along the CR order. -/
theorem cr_tables_monotone :
    ∀ c1 c2 : CR, c1.idx ≤ c2.idx →
      ProfBonus.fromCR c1 ≤ ProfBonus.fromCR c2 ∧
      AC.fromCR c1 ≤ AC.fromCR c2 ∧
      c1.to_hit_bonus ≤ c2.to_hit_bonus ∧
      c1.save_dc ≤ c2.save_dc := by
  intro c1 c2 h
  refine ⟨?_, ?_, ?_, ?_⟩
  · rw [profBonus_eq_ofIdx, profBonus_eq_ofIdx]
    exact profBonusOfIdx_mono _ _ h
  · rw [ac_eq_ofIdx, ac_eq_ofIdx]
    exact acOfIdx_mono _ _ h
  · rw [toHit_eq_ofIdx, toHit_eq_ofIdx]
    exact toHitOfIdx_mono _ _ h
  · rw [saveDc_eq_ofIdx, saveDc_eq_ofIdx]
    exact saveDcOfIdx_mono _ _ h

/-- C8 (witness): the table monotonicity at the extreme pair CR0 ≤ CR30. -/
theorem cr_tables_monotone_witness :
    ProfBonus.fromCR .CR0 ≤ ProfBonus.fromCR .CR30 ∧
    AC.fromCR .CR0 ≤ AC.fromCR .CR30 ∧
    CR.to_hit_bonus .CR0 ≤ CR.to_hit_bonus .CR30 ∧
    CR.save_dc .CR0 ≤ CR.save_dc .CR30 :=
  cr_tables_monotone .CR0 .CR30 (by decide)

/-- C9 (counterexample): the CR enumeration has 34 pairwise distinct
levels — 0, 1/8, 1/4, 1/2 and 1 through 30 — not 31 as the claim
counts. -/
theorem cr_level_count_cex :
    CR.all.Nodup ∧ CR.all.length = 34 ∧ ¬ CR.all.length = 31 := by
  refine ⟨by decide, rfl, by decide⟩

/-- C9 (amended): CR is a totally ordered enumeration with exactly 34
levels, namely 0, 1/8, 1/4, 1/2 and 1 through 30, each carrying its exact
real value, and numeric comparison agrees with the declared order. -/
theorem cr_enumeration :
    CR.all.length = 34 ∧
    CR.all.Nodup ∧
    (∀ c : CR, c ∈ CR.all) ∧
    CR.all.map CR.toReal =
      [0, 1 / 8, 1 / 4, 1 / 2, 1, 2, 3, 4, 5, 6, 7, 8, 9, 10, 11, 12, 13,
       14, 15, 16, 17, 18, 19, 20, 21, 22, 23, 24, 25, 26, 27, 28, 29, 30] ∧
    (∀ a b : CR, a.idx ≤ b.idx ↔ a.toReal ≤ b.toReal) := by
  refine ⟨rfl, by decide, ?_, rfl, ?_⟩
  · intro c
    cases c <;> simp [CR.all]
  · intro a b
    rw [toReal_eq_indexValue, toReal_eq_indexValue]
    exact (crIndexValue_strictMono.le_iff_le).symm

/-- C10: clamp_isize never panics — the checked conversion always succeeds
— and returns 0 on negatives and the input unchanged otherwise. -/
theorem clamp_isize_total :
    ∀ i : Int,
      (clamp_isize_checked i).isSome = true ∧
      clamp_isize_checked i = some (clamp_isize i) ∧
      (i < 0 → clamp_isize i = 0) ∧
      (0 ≤ i → (clamp_isize i : Int) = i) := by
  intro i
  by_cases h : i < 0
  · refine ⟨?_, ?_, fun _ => ?_, fun h2 => absurd h2 (by omega)⟩ <;>
      simp [clamp_isize_checked, clamp_isize, h]
  · have h0 : (0 : Int) ≤ i := by omega
    refine ⟨?_, ?_, fun h2 => absurd h2 h, fun _ => ?_⟩ <;>
      simp [clamp_isize_checked, clamp_isize, try_into_usize, h, h0,
        Int.toNat_of_nonneg]

/-- C10 (witness): the conversion at −5 and at 7. -/
theorem clamp_isize_total_witness :
    (clamp_isize_checked (-5)).isSome = true ∧
    clamp_isize (-5) = 0 ∧
    ((clamp_isize 7 : Nat) : Int) = 7 :=
  ⟨(clamp_isize_total (-5)).1, (clamp_isize_total (-5)).2.2.1 (by decide),
   (clamp_isize_total 7).2.2.2 (by decide)⟩

end Dondo
